import Mathlib

/-!
Shallow embedding of `sphinx_inventory_builder/__init__.py` (version 0.2.0).

Python strings are modelled as `List Char` where character-level reasoning is
needed (the URI rewriter) and as `String` elsewhere.  Python exceptions are
modelled with `Except`; functions that perform side effects return an explicit
trace of `Effect`s instead of performing them.
-/

/-- Python `s.startswith(pat)` on character lists. -/
def starts_with (s pat : List Char) : Bool :=
  match s, pat with
  | _, [] => true
  | [], _ :: _ => false
  | c :: s', p :: pat' => c == p && starts_with s' pat'

/-- Index of the first element satisfying `p`, or `none`.  Models both
Python `list.index` (wrapped in `try`) and the scan in `str.find`. -/
def find_idx_from {α : Type} (p : α → Bool) : List α → Option Nat
  | [] => none
  | c :: rest => if p c then some 0 else (find_idx_from p rest).map (· + 1)

/-- Python `s.find(c, start)`: index of the first occurrence of `c` at
position ≥ `start`, as an `Option` instead of `-1`. -/
def py_find (c : Char) (start : Nat) (s : List Char) : Option Nat :=
  (find_idx_from (· == c) (s.drop start)).map (· + start)

/-- First element satisfying `p`, or `none`.  Models a Python
`for`/`if`/`break` scan. -/
def find_first {α : Type} (p : α → Bool) : List α → Option α
  | [] => none
  | a :: rest => if p a then some a else find_first p rest

/-- Python `s.split(c, 1)[1]`: the characters after the first occurrence of
`c`; `none` models the `IndexError` when `c` does not occur. -/
def split_once_after (c : Char) (s : List Char) : Option (List Char) :=
  (find_idx_from (· == c) s).map (fun i => s.drop (i + 1))

/-- The marker the host's single-page builder puts in front of pending
cross-document URIs. -/
def document_marker : List Char := "#document-".toList

/-- The URI rewriting performed by `patched_get_target_uri` on the URI the
original `get_target_uri` returned: a `"#document-..."` URI is redirected to
`root_doc ++ out_suffix` plus the fragment from the next `'#'` onward;
any other URI is returned unchanged. -/
def patched_get_target_uri (root_doc out_suffix uri : List Char) : List Char :=
  if starts_with uri document_marker then
    match py_find '#' document_marker.length uri with
    | some i => root_doc ++ out_suffix ++ uri.drop i
    | none => root_doc ++ out_suffix
  else uri

/-- The slice of builder state `on_builder_inited` touches: the builder's
name, its output suffix, and its target-URI computation (document name and
optional type hint to URI). -/
structure Builder where
  name : String
  out_suffix : List Char
  get_target_uri : String → Option String → List Char

/-- The `builder-inited` hook: installs the URI rewriter over the builder's
`get_target_uri` exactly when the builder is `inventory-singlehtml` or the
host's own `singlehtml`. -/
def on_builder_inited (root_doc : List Char) (b : Builder) : Builder :=
  if b.name = "inventory-singlehtml" ∨ b.name = "singlehtml" then
    { b with get_target_uri := fun docname typ =>
        patched_get_target_uri root_doc b.out_suffix (b.get_target_uri docname typ) }
  else b

/-- The slice of the host environment the mixin reads: the set of found
documents plus the modification-time records the host keeps per document. -/
structure Env where
  found_docs : List String
  all_docs : List (String × Nat)
deriving DecidableEq

/-- The slice of builder/application state the mixin's methods read. -/
structure BuilderState where
  env : Option Env
  outdir : String
  inventory_filename : String
deriving DecidableEq

/-- Abstract parsed document tree; the mixin never inspects it. -/
structure Doctree where
  nodes : List String
deriving DecidableEq

/-- Observable side effects of the mixin's methods. -/
inductive Effect where
  | dump (path : String) (e : Env)
deriving DecidableEq

/-- POSIX `os.path.join` restricted to two components. -/
def os_path_join (a b : String) : String :=
  if b.startsWith "/" then b
  else if a = "" ∨ a.endsWith "/" then a ++ b
  else a ++ "/" ++ b

/-- `_InventoryMixin.get_outdated_docs`: `self.env.found_docs`; `none`
models the attribute error when the environment is absent. -/
def get_outdated_docs (st : BuilderState) : Option (List String) :=
  st.env.map (·.found_docs)

/-- `_InventoryMixin.write_doc`: suppress writing; returns the state
unchanged and an empty effect trace, and is total (cannot fail). -/
def write_doc (st : BuilderState) (docname : String) (doctree : Doctree) :
    BuilderState × List Effect :=
  (st, [])

/-- `_InventoryMixin.copy_static_files`: suppress copying; returns the state
unchanged and an empty effect trace, and is total (cannot fail). -/
def copy_static_files (st : BuilderState) : BuilderState × List Effect :=
  (st, [])

/-- `_InventoryMixin.finish`: assert the environment exists, then dump the
inventory to `os.path.join(outdir, inventory_filename)`.  The error case
models the `AssertionError`. -/
def finish (st : BuilderState) : Except String (List Effect) :=
  match st.env with
  | none => Except.error "AssertionError"
  | some e => Except.ok [Effect.dump (os_path_join st.outdir st.inventory_filename) e]

/-- A builder class as assembled from `_InventoryMixin` plus a host base
class; the base class contributes only the target-URI scheme. -/
structure BuilderClass where
  name : String
  get_outdated_docs : BuilderState → Option (List String)
  write_doc : BuilderState → String → Doctree → BuilderState × List Effect
  copy_static_files : BuilderState → BuilderState × List Effect
  finish : BuilderState → Except String (List Effect)
  base_get_target_uri : String → Option String → List Char

/-- `InventoryHtmlBuilder`: the mixin over the multi-page host base. -/
def InventoryHtmlBuilder (base : String → Option String → List Char) : BuilderClass :=
  { name := "inventory-html"
    get_outdated_docs := get_outdated_docs
    write_doc := write_doc
    copy_static_files := copy_static_files
    finish := finish
    base_get_target_uri := base }

/-- `InventorySingleHtmlBuilder`: the mixin over the single-page host base. -/
def InventorySingleHtmlBuilder (base : String → Option String → List Char) : BuilderClass :=
  { name := "inventory-singlehtml"
    get_outdated_docs := get_outdated_docs
    write_doc := write_doc
    copy_static_files := copy_static_files
    finish := finish
    base_get_target_uri := base }

/-- The errors `detect_builder` can raise: `indexError` models the uncaught
`IndexError` from `argv[i + 1]`, `nameError` the `UnboundLocalError` from
returning the never-assigned `name`. -/
inductive DetectErr where
  | indexError
  | nameError
deriving DecidableEq

/-- `detect_builder`: find `"-b"` in `argv` and take the following element;
on `ValueError` fall back to the first `"--builder="`-prefixed argument and
take what follows the first `"="`. -/
def detect_builder (argv : List String) : Except DetectErr String :=
  match find_idx_from (· == "-b") argv with
  | some i =>
      match argv.get? (i + 1) with
      | some nm => Except.ok nm
      | none => Except.error DetectErr.indexError
  | none =>
      match find_first (fun a => starts_with a.toList ("--builder=".toList)) argv with
      | some a =>
          match split_once_after '=' a.toList with
          | some nm => Except.ok (String.mk nm)
          | none => Except.error DetectErr.indexError
      | none => Except.error DetectErr.nameError

/-- The configuration values `disable_intersphinx` touches. -/
structure Config where
  intersphinx_mapping : List (String × String)
  intersphinx_disabled_reftypes : List String
  suppress_warnings : List String
deriving DecidableEq

/-- The `config-inited` hook: when the builder detected from `argv` is one
of the two inventory variants, clear the intersphinx mapping, disable all
reference types, and set the suppressed warnings; an error from
`detect_builder` propagates. -/
def disable_intersphinx (argv : List String) (config : Config) : Except DetectErr Config :=
  match detect_builder argv with
  | Except.error e => Except.error e
  | Except.ok nm =>
      if nm ∈ ["inventory-html", "inventory-singlehtml"] then
        Except.ok { config with
          intersphinx_mapping := []
          intersphinx_disabled_reftypes := ["*"]
          suppress_warnings := ["ref.*", "docutils"] }
      else Except.ok config

/-- The slice of a pending-reference node the hook reads: whether the
intersphinx machinery tagged it as external (the truthiness of
`getattr(node, "intersphinx", False)`). -/
structure RefNode where
  intersphinx : Bool
deriving DecidableEq

/-- The `missing-reference` hook: return `none` (ignore, no warning) for
intersphinx-tagged nodes, otherwise return the content node unchanged. -/
def ignore_external_refs {α : Type} (node : RefNode) (contnode : α) : Option α :=
  if node.intersphinx then none else some contnode

/-- One `app.add_config_value(name, default, rebuild)` registration. -/
structure ConfigValueRegistration where
  name : String
  default : String
  rebuild : String
deriving DecidableEq

/-- The configuration values `setup` registers. -/
def setup_config_values : List ConfigValueRegistration :=
  [⟨"inventory_filename", "objects.inv", ""⟩]

theorem starts_with_nil (s : List Char) : starts_with s [] = true := by
  cases s <;> rfl

theorem starts_with_append (pat rest : List Char) : starts_with (pat ++ rest) pat = true := by
  induction pat with
  | nil => exact starts_with_nil rest
  | cons p pat' ih => simp [starts_with, ih]

theorem find_idx_from_eq_none {α : Type} (p : α → Bool) (d : List α)
    (h : ∀ x ∈ d, p x = false) : find_idx_from p d = none := by
  induction d with
  | nil => rfl
  | cons c rest ih =>
      simp [find_idx_from, h c (List.mem_cons_self c rest),
        ih (fun x hx => h x (List.mem_cons_of_mem c hx))]

theorem find_idx_from_append {α : Type} (p : α → Bool) (d : List α) (c : α) (a : List α)
    (hd : ∀ x ∈ d, p x = false) (hc : p c = true) :
    find_idx_from p (d ++ c :: a) = some d.length := by
  induction d with
  | nil => simp [find_idx_from, hc]
  | cons x rest ih =>
      simp [find_idx_from, hd x (List.mem_cons_self x rest),
        ih (fun y hy => hd y (List.mem_cons_of_mem x hy))]

/-- C1: a URI without the `#document-` marker is returned unchanged; a URI
of shape `#document-<d>#<a>` (no `#` in `<d>`) is rewritten to
`root_doc ++ out_suffix ++ #<a>`; a URI `#document-<d>` with no further `#`
is rewritten to `root_doc ++ out_suffix`. -/
theorem patched_get_target_uri_correct (root_doc out_suffix : List Char) :
    (∀ uri : List Char, starts_with uri document_marker = false →
      patched_get_target_uri root_doc out_suffix uri = uri) ∧
    (∀ d a : List Char, '#' ∉ d →
      patched_get_target_uri root_doc out_suffix (document_marker ++ d ++ '#' :: a)
        = root_doc ++ out_suffix ++ '#' :: a) ∧
    (∀ d : List Char, '#' ∉ d →
      patched_get_target_uri root_doc out_suffix (document_marker ++ d)
        = root_doc ++ out_suffix) := by
  refine ⟨?_, ?_, ?_⟩
  · intro uri h
    simp [patched_get_target_uri, h]
  · intro d a hd
    have hmem : ∀ x ∈ d, (x == '#') = false := by
      intro x hx
      exact beq_eq_false_iff_ne.mpr (fun hEq => hd (hEq ▸ hx))
    have hpre : starts_with (document_marker ++ (d ++ '#' :: a)) document_marker = true :=
      starts_with_append _ _
    have hfind : py_find '#' document_marker.length (document_marker ++ (d ++ '#' :: a))
        = some (d.length + document_marker.length) := by
      unfold py_find
      rw [List.drop_left, find_idx_from_append _ _ _ _ hmem (by rfl)]
      rfl
    have hdrop : (document_marker ++ (d ++ '#' :: a)).drop (d.length + document_marker.length)
        = '#' :: a := by
      rw [Nat.add_comm, ← List.drop_drop, List.drop_left, List.drop_left]
    simp [patched_get_target_uri, hpre, hfind, hdrop]
  · intro d hd
    have hmem : ∀ x ∈ d, (x == '#') = false := by
      intro x hx
      exact beq_eq_false_iff_ne.mpr (fun hEq => hd (hEq ▸ hx))
    have hpre : starts_with (document_marker ++ d) document_marker = true :=
      starts_with_append _ _
    have hfind : py_find '#' document_marker.length (document_marker ++ d) = none := by
      unfold py_find
      rw [List.drop_left, find_idx_from_eq_none _ _ hmem]
      rfl
    simp [patched_get_target_uri, hpre, hfind]

theorem patched_get_target_uri_correct_witness :
    starts_with "foo.html".toList document_marker = false ∧
    patched_get_target_uri "index".toList ".html".toList "foo.html".toList
      = "foo.html".toList ∧
    ('#' ∉ "bar".toList) ∧
    patched_get_target_uri "index".toList ".html".toList
        (document_marker ++ "bar".toList ++ '#' :: "sec-1".toList)
      = "index".toList ++ ".html".toList ++ '#' :: "sec-1".toList ∧
    patched_get_target_uri "index".toList ".html".toList (document_marker ++ "bar".toList)
      = "index".toList ++ ".html".toList :=
  ⟨by decide,
   (patched_get_target_uri_correct _ _).1 _ (by decide),
   by decide,
   (patched_get_target_uri_correct _ _).2.1 _ _ (by decide),
   (patched_get_target_uri_correct _ _).2.2 _ (by decide)⟩

/-- C8: the URI rewriter is installed exactly when the builder's name is
`inventory-singlehtml` or `singlehtml`; otherwise the builder is left
unmodified. -/
theorem on_builder_inited_cases (root_doc : List Char) (b : Builder) :
    (b.name = "inventory-singlehtml" ∨ b.name = "singlehtml" →
      on_builder_inited root_doc b =
        { b with get_target_uri := fun docname typ =>
            patched_get_target_uri root_doc b.out_suffix (b.get_target_uri docname typ) }) ∧
    (¬ (b.name = "inventory-singlehtml" ∨ b.name = "singlehtml") →
      on_builder_inited root_doc b = b) := by
  constructor
  · intro h
    unfold on_builder_inited
    rw [if_pos h]
  · intro h
    unfold on_builder_inited
    rw [if_neg h]

theorem on_builder_inited_cases_witness :
    on_builder_inited [] { name := "html", out_suffix := [], get_target_uri := fun _ _ => [] }
      = { name := "html", out_suffix := [], get_target_uri := fun _ _ => [] } ∧
    on_builder_inited []
        { name := "singlehtml", out_suffix := [], get_target_uri := fun _ _ => [] }
      = { name := "singlehtml", out_suffix := [],
          get_target_uri := fun _ _ => patched_get_target_uri [] [] [] } :=
  ⟨(on_builder_inited_cases [] _).2 (by decide),
   (on_builder_inited_cases [] _).1 (Or.inr rfl)⟩

/-- C9: the two builder variants carry the very same four overridden
operations and differ only in name and in the inherited target-URI scheme. -/
theorem variants_share_mixin_ops (b1 b2 : String → Option String → List Char) :
    (InventoryHtmlBuilder b1).get_outdated_docs
        = (InventorySingleHtmlBuilder b2).get_outdated_docs ∧
    (InventoryHtmlBuilder b1).write_doc = (InventorySingleHtmlBuilder b2).write_doc ∧
    (InventoryHtmlBuilder b1).copy_static_files
        = (InventorySingleHtmlBuilder b2).copy_static_files ∧
    (InventoryHtmlBuilder b1).finish = (InventorySingleHtmlBuilder b2).finish ∧
    (InventoryHtmlBuilder b1).name ≠ (InventorySingleHtmlBuilder b2).name ∧
    (InventoryHtmlBuilder b1).base_get_target_uri = b1 ∧
    (InventorySingleHtmlBuilder b2).base_get_target_uri = b2 :=
  ⟨rfl, rfl, rfl, rfl,
   show ("inventory-html" : String) ≠ "inventory-singlehtml" by decide, rfl, rfl⟩

/-- C7: outdated-document detection returns the full set of found documents
and ignores the per-document modification records entirely. -/
theorem get_outdated_docs_full (st : BuilderState) (e : Env) (h : st.env = some e)
    (m' : List (String × Nat)) :
    get_outdated_docs st = some e.found_docs ∧
    get_outdated_docs { st with env := some { e with all_docs := m' } }
      = some e.found_docs := by
  constructor
  · simp [get_outdated_docs, h]
  · simp [get_outdated_docs]

theorem get_outdated_docs_full_witness :
    get_outdated_docs
        { env := some { found_docs := ["index", "api"], all_docs := [("index", 5)] },
          outdir := "out", inventory_filename := "objects.inv" }
      = some ["index", "api"] ∧
    get_outdated_docs
        { env := some { found_docs := ["index", "api"], all_docs := [] },
          outdir := "out", inventory_filename := "objects.inv" }
      = some ["index", "api"] :=
  get_outdated_docs_full
    { env := some { found_docs := ["index", "api"], all_docs := [("index", 5)] },
      outdir := "out", inventory_filename := "objects.inv" }
    { found_docs := ["index", "api"], all_docs := [("index", 5)] } rfl []

/-- C6: per-document write and static-asset copy leave the state unchanged,
produce no effect, and are total functions (no error case). -/
theorem write_doc_copy_static_noop (st : BuilderState) (docname : String) (doctree : Doctree) :
    write_doc st docname doctree = (st, []) ∧ copy_static_files st = (st, []) :=
  ⟨rfl, rfl⟩

/-- C4: when the environment is initialized, `finish` produces exactly one
dump effect, at the join of the output directory and the configured
inventory file name, whose registered default is `"objects.inv"`. -/
theorem finish_writes_inventory_once (st : BuilderState) (e : Env) (h : st.env = some e) :
    finish st = Except.ok
        [Effect.dump (os_path_join st.outdir st.inventory_filename) e] ∧
    (setup_config_values.find? (fun r => r.name == "inventory_filename")).map
        (fun r => r.default) = some "objects.inv" := by
  constructor
  · simp [finish, h]
  · rfl

theorem finish_writes_inventory_once_witness :
    finish { env := some { found_docs := ["index"], all_docs := [] },
             outdir := "out", inventory_filename := "objects.inv" }
      = Except.ok [Effect.dump (os_path_join "out" "objects.inv")
          { found_docs := ["index"], all_docs := [] }] ∧
    (setup_config_values.find? (fun r => r.name == "inventory_filename")).map
        (fun r => r.default) = some "objects.inv" :=
  finish_writes_inventory_once
    { env := some { found_docs := ["index"], all_docs := [] },
      outdir := "out", inventory_filename := "objects.inv" }
    { found_docs := ["index"], all_docs := [] } rfl

/-- C5: an intersphinx-tagged node is resolved to `none` (silently ignored);
any other node resolves to the content node, triggering the host's normal
warning path. -/
theorem ignore_external_refs_cases {α : Type} (node : RefNode) (contnode : α) :
    (node.intersphinx = true → ignore_external_refs node contnode = none) ∧
    (node.intersphinx = false → ignore_external_refs node contnode = some contnode) := by
  constructor <;> intro h <;> simp [ignore_external_refs, h]

theorem ignore_external_refs_cases_witness :
    ignore_external_refs { intersphinx := true } (0 : Nat) = none ∧
    ignore_external_refs { intersphinx := false } (0 : Nat) = some 0 :=
  ⟨(ignore_external_refs_cases { intersphinx := true } 0).1 rfl,
   (ignore_external_refs_cases { intersphinx := false } 0).2 rfl⟩

/-- C3 counterexample: with a pre-existing suppressed-warning entry, the
hook replaces the list outright, so the pre-existing entry is gone from the
result — it is not added to. -/
theorem disable_intersphinx_discards_preexisting :
    disable_intersphinx ["-b", "inventory-html"]
        { intersphinx_mapping := [("python", "https://docs.python.org/3")],
          intersphinx_disabled_reftypes := [],
          suppress_warnings := ["epub.unknown_project_files"] }
      = Except.ok { intersphinx_mapping := [], intersphinx_disabled_reftypes := ["*"],
                    suppress_warnings := ["ref.*", "docutils"] } ∧
    "epub.unknown_project_files" ∉
      (Config.mk [] ["*"] ["ref.*", "docutils"]).suppress_warnings :=
  ⟨rfl, by decide⟩

/-- C3 amended: when the detected builder is an inventory variant, the hook
sets the configuration to empty mappings, the all-reftypes wildcard, and
exactly the two warning categories, discarding pre-existing entries. -/
theorem disable_intersphinx_on_inventory (argv : List String) (cfg : Config) (nm : String)
    (h : detect_builder argv = Except.ok nm)
    (h2 : nm = "inventory-html" ∨ nm = "inventory-singlehtml") :
    disable_intersphinx argv cfg =
      Except.ok { intersphinx_mapping := [], intersphinx_disabled_reftypes := ["*"],
                  suppress_warnings := ["ref.*", "docutils"] } := by
  have hmem : nm ∈ ["inventory-html", "inventory-singlehtml"] := by
    rcases h2 with h2 | h2 <;> simp [h2]
  simp [disable_intersphinx, h, hmem]

theorem disable_intersphinx_on_inventory_witness :
    disable_intersphinx ["-b", "inventory-singlehtml"]
        { intersphinx_mapping := [], intersphinx_disabled_reftypes := [],
          suppress_warnings := [] }
      = Except.ok { intersphinx_mapping := [], intersphinx_disabled_reftypes := ["*"],
                    suppress_warnings := ["ref.*", "docutils"] } :=
  disable_intersphinx_on_inventory ["-b", "inventory-singlehtml"]
    { intersphinx_mapping := [], intersphinx_disabled_reftypes := [],
      suppress_warnings := [] }
    "inventory-singlehtml" rfl (Or.inr rfl)

/-- C2: on an argument vector with neither `-b` nor `--builder=`, the
detection reaches `return name` with `name` never assigned, so both the
detection and the configuration hook raise instead of leaving the
configuration unchanged. -/
theorem detect_builder_unbound_name :
    detect_builder ["sphinx-build", "docs", "_build"] = Except.error DetectErr.nameError ∧
    disable_intersphinx ["sphinx-build", "docs", "_build"]
        { intersphinx_mapping := [("python", "https://docs.python.org/3")],
          intersphinx_disabled_reftypes := [],
          suppress_warnings := ["epub.unknown_project_files"] }
      = Except.error DetectErr.nameError :=
  ⟨rfl, rfl⟩

/-- C10: when `-b` occurs only as the final argument, the read of the
following element raises an uncaught out-of-range error; the `--builder=`
fallback is never consulted. -/
theorem detect_builder_dash_b_last (pre : List String) (h : ∀ x ∈ pre, (x == "-b") = false) :
    detect_builder (pre ++ ["-b"]) = Except.error DetectErr.indexError := by
  have hidx : find_idx_from (fun a => a == "-b") (pre ++ ["-b"]) = some pre.length :=
    find_idx_from_append _ _ _ _ h rfl
  have hget : (pre ++ ["-b"])[pre.length + 1]? = none :=
    List.getElem?_eq_none (by simp)
  simp [detect_builder, hidx, hget]

theorem detect_builder_dash_b_last_witness :
    detect_builder (["sphinx-build", "docs", "_build"] ++ ["-b"])
      = Except.error DetectErr.indexError :=
  detect_builder_dash_b_last ["sphinx-build", "docs", "_build"] (by decide)
